import Mathlib

/-
Verification of the 17TRACK package-tracking core (track17/scripts/track.py)
against its natural-language specification.

The SQLite store is embedded shallowly: the `packages` table is a list of
`Pkg` records, the `events` table a list of `Event` records, and the
AUTOINCREMENT primary-key counter of `packages` is the `next_id` field.
The `id` column of `events` and the `created_at` column of `packages` are
never read by any operation under verification and are omitted.
Nullable SQL columns become `Option`; `tracking_number TEXT UNIQUE NOT NULL`
stays a plain `String` carried by each row.  `datetime.now().isoformat()`
is passed in as an explicit `now : String` argument, and the outcome of the
outbound HTTP request made by `Track17._request` is passed to `sync` as an
`ApiResult` argument (an exception caught inside `_request` becomes
`ApiResult.err`, mirroring the `{"error": str(e)}` dictionary it returns;
a decoded body becomes `ApiResult.ok` with the `data` mapping as an
association list).
-/

namespace Track17

/-- A row of the `packages` table (track.py lines 43-52). -/
structure Pkg where
  id : Nat
  tracking_number : String
  carrier : Option String
  status : Option String
  last_update : Option String
deriving DecidableEq

/-- A row of the `events` table (track.py lines 54-63); the unread
AUTOINCREMENT `id` column is omitted. -/
structure Event where
  package_id : Nat
  timestamp : Option String
  location : Option String
  description : Option String
deriving DecidableEq

/-- The SQLite database: both tables plus the packages AUTOINCREMENT counter. -/
structure Store where
  packages : List Pkg
  events : List Event
  next_id : Nat
deriving DecidableEq

/-- Result of `Track17.add`: the success dictionary, or the
`{"success": False, "error": "Package already exists"}` dictionary produced
from `sqlite3.IntegrityError`. -/
inductive AddResult where
  | ok
  | duplicate
deriving DecidableEq

/-- Embeds `Track17.add` (track.py lines 94-115): INSERT with status "pending";
the UNIQUE constraint on `tracking_number` raises `IntegrityError` when the
number is already present, in which case `conn.commit()` is never reached
and the store is unchanged. -/
def add (s : Store) (tracking_number : String) (carrier : Option String) :
    Store × AddResult :=
  if s.packages.any (fun p => p.tracking_number == tracking_number) then
    (s, AddResult.duplicate)
  else
    ({ s with
        packages := s.packages ++
          [⟨s.next_id, tracking_number, carrier, some "pending", none⟩],
        next_id := s.next_id + 1 },
     AddResult.ok)

/-- Embeds `Track17.get` (track.py lines 149-188): `none` models the
`{"success": False, "error": "Package not found"}` dictionary; on success the
package row is returned with the events whose `package_id` matches its id.
(The `ORDER BY timestamp DESC` clause only reorders the returned list; no
claim below depends on event order.) -/
def get (s : Store) (tracking_number : String) : Option (Pkg × List Event) :=
  (s.packages.find? (fun p => p.tracking_number == tracking_number)).map
    (fun row => (row, s.events.filter (fun e => e.package_id == row.id)))

/-- Embeds `Track17.delete` (track.py lines 190-211): first
DELETE FROM events WHERE package_id IN (SELECT id FROM packages WHERE
tracking_number = ?), then DELETE FROM packages WHERE tracking_number = ?,
then commit.  The returned `Bool` is the `"success"` field of the result
dictionary, which is `True` unconditionally. -/
def delete (s : Store) (tracking_number : String) : Store × Bool :=
  ({ s with
      events := s.events.filter (fun e =>
        !(((s.packages.filter
              (fun p => p.tracking_number == tracking_number)).map
            Pkg.id).contains e.package_id)),
      packages := s.packages.filter
        (fun p => !(p.tracking_number == tracking_number)) },
   true)

/-- One element of an `events` list inside a carrier payload (sync response
`info["events"]` or webhook `data["events"]`): the code reads the keys
`time`, `location`, `description` with `.get`, so each may be absent. -/
structure EventPayload where
  time : Option String
  location : Option String
  description : Option String
deriving DecidableEq

/-- One value of the `data` mapping in a sync response: the code reads
`info.get("status", "unknown")` and `info.get("events", [])`. -/
structure CarrierInfo where
  status : Option String
  events : List EventPayload
deriving DecidableEq

/-- Outcome of `Track17._request` (track.py lines 74-91): a caught exception
becomes the `{"error": str(e)}` dictionary (`err`); otherwise the decoded
body's `data` mapping, as an association list from tracking number to
`CarrierInfo` (`ok`; a body without a `data` key is `ok []`, matching
`result.get("data", {})`). -/
inductive ApiResult where
  | err (msg : String)
  | ok (data : List (String × CarrierInfo))
deriving DecidableEq

/-- Outcome of `Track17.sync`: `error` models the
`{"success": False, "error": msg}` dictionaries, `ok` the
`{"success": True, "synced": n}` dictionary, and `crash` an uncaught
`TypeError` from `cursor.fetchone()["id"]` when a response number is not in
the store (the transaction is then never committed, so the durable store
keeps its pre-call contents). -/
inductive SyncOutcome where
  | error (msg : String)
  | ok (synced : Nat)
  | crash
deriving DecidableEq

/-- The UPDATE of track.py lines 252-255: set status and last_update on
every row whose tracking_number matches. -/
def updateStatus (s : Store) (n st now : String) : Store :=
  { s with
      packages := s.packages.map (fun p =>
        if p.tracking_number == n then
          { p with status := some st, last_update := some now }
        else p) }

/-- The SELECT of track.py lines 258-262: the id of the first row with the
given tracking number, if any. -/
def findId (s : Store) (n : String) : Option Nat :=
  (s.packages.find? (fun p => p.tracking_number == n)).map Pkg.id

/-- The event INSERTs of track.py lines 265-269 (also lines 369-373): append
one `events` row per payload event, owned by package `pid`. -/
def insertEvents (s : Store) (pid : Nat) (evs : List EventPayload) : Store :=
  { s with
      events := s.events ++
        evs.map (fun e => ⟨pid, e.time, e.location, e.description⟩) }

/-- The per-number loop of `Track17.sync` (track.py lines 246-271): for each
`(tracking_number, info)` pair of the response data, UPDATE the package,
SELECT its id (`none` on `fetchone()` returning no row models the uncaught
`TypeError` that aborts the uncommitted transaction), INSERT the events, and
count the number as updated. -/
def syncLoop (now : String) :
    List (String × CarrierInfo) → Store → Option (Store × Nat)
  | [], s => some (s, 0)
  | (n, info) :: rest, s =>
    let s1 := updateStatus s n (info.status.getD "unknown") now
    match findId s1 n with
    | none => none
    | some pid =>
      match syncLoop now rest (insertEvents s1 pid info.events) with
      | none => none
      | some (s2, c) => some (s2, c + 1)

/-- Embeds `Track17.sync` (track.py lines 214-280): select the targeted packages
(one number or all); if none, fail with "No packages to sync"; if the
request outcome carries an "error" key, fail with it and touch nothing;
otherwise run the merge loop over the response data and commit. -/
def sync (s : Store) (tracking_number : Option String) (api : ApiResult)
    (now : String) : Store × SyncOutcome :=
  let pkgs : List Pkg := match tracking_number with
    | some n => s.packages.filter (fun p => p.tracking_number == n)
    | none => s.packages
  if pkgs.isEmpty then
    (s, SyncOutcome.error "No packages to sync")
  else
    match api with
    | ApiResult.err m => (s, SyncOutcome.error m)
    | ApiResult.ok data =>
      match syncLoop now data s with
      | none => (s, SyncOutcome.crash)
      | some (s2, c) => (s2, SyncOutcome.ok c)

/-- A webhook body (track.py lines 349-353): the code reads
`data.get("tracking_number")`, `data.get("status")`, `data.get("events", [])`,
so the first two may be absent. -/
structure WebhookData where
  tracking_number : Option String
  status : Option String
  events : List EventPayload
deriving DecidableEq

/-- Embeds `Track17.handle_webhook` (track.py lines 349-378): UPDATE status and
last_update on the matching row (an SQL comparison with NULL matches no
row, hence the `some`-wrapped comparison), then SELECT the row's id and, if
one exists, INSERT every payload event; always return
`{"success": True, ...}` (the `Bool` component). -/
def handle_webhook (s : Store) (d : WebhookData) (now : String) :
    Store × Bool :=
  let s1 : Store := { s with
      packages := s.packages.map (fun p =>
        if some p.tracking_number == d.tracking_number then
          { p with status := d.status, last_update := some now }
        else p) }
  match s1.packages.find?
      (fun p => some p.tracking_number == d.tracking_number) with
  | none => (s1, true)
  | some row =>
    ({ s1 with
        events := s1.events ++
          d.events.map (fun e => ⟨row.id, e.time, e.location, e.description⟩) },
     true)

/-- One record of a JSON import file: the code reads `pkg.get("number")` and
`pkg.get("carrier")`, so both may be absent. -/
structure ImportRecord where
  number : Option String
  carrier : Option String
deriving DecidableEq

/-- The INSERT OR IGNORE of track.py lines 296-299: a NULL tracking number
violates the NOT NULL constraint and a known number the UNIQUE constraint;
both violations are suppressed by OR IGNORE, which skips the row without
raising, so the surrounding try/except never fires. -/
def insertOrIgnore (s : Store) (number carrier : Option String) : Store :=
  match number with
  | none => s
  | some num =>
    if s.packages.any (fun p => p.tracking_number == num) then s
    else
      { s with
          packages := s.packages ++ [⟨s.next_id, num, carrier, none, none⟩],
          next_id := s.next_id + 1 }

/-- The JSON branch loop of `Track17.import_packages` (track.py lines
291-302): every record is INSERT OR IGNOREd and then counted as imported;
`errors` only collects exceptions, which OR IGNORE prevents. -/
def importLoop :
    List ImportRecord → Store → Nat → List String → Store × Nat × List String
  | [], s, imported, errors => (s, imported, errors)
  | r :: rest, s, imported, errors =>
    importLoop rest (insertOrIgnore s r.number r.carrier) (imported + 1) errors

/-- Embeds `Track17.import_packages` on a JSON file (track.py lines 283-325),
applied to the parsed record list: returns the final store, the `imported`
count and the `errors` list of the success dictionary. -/
def import_packages (s : Store) (records : List ImportRecord) :
    Store × Nat × List String :=
  importLoop records s 0 []

/-! Helper lemmas shared by several theorems below. -/

/-- Mapping a function that fixes every element of a list is the identity. -/
theorem list_map_fix {α : Type} (f : α → α) :
    ∀ (l : List α), (∀ x ∈ l, f x = x) → l.map f = l := by
  intro l
  induction l with
  | nil => intro _; rfl
  | cons a t ih =>
    intro h
    simp only [List.map_cons]
    rw [h a (List.mem_cons_self a t), ih (fun x hx => h x (List.mem_cons_of_mem a hx))]

/-- Claim C1: the merge is NOT idempotent.  Starting from a store holding one
pending package "N1" with an empty ledger, applying the identical
`(status, events)` payload twice — via `handle_webhook` or via `sync` on a
carrier response — leaves two copies of the `(timestamp, description)` pair
`(t1, Departed)` in the event ledger, and the second application changes the
store that the first application produced. -/
theorem merge_not_idempotent :
    (((handle_webhook
        (handle_webhook ⟨[⟨1, "N1", none, some "pending", none⟩], [], 2⟩
          ⟨some "N1", some "in_transit", [⟨some "t1", some "Memphis", some "Departed"⟩]⟩ "T0").1
        ⟨some "N1", some "in_transit", [⟨some "t1", some "Memphis", some "Departed"⟩]⟩ "T0").1.events.filter
      (fun e => e.timestamp == some "t1" && e.description == some "Departed")).length = 2) ∧
    (((sync
        (sync ⟨[⟨1, "N1", none, some "pending", none⟩], [], 2⟩ none
          (ApiResult.ok [("N1", ⟨some "in_transit", [⟨some "t1", some "Memphis", some "Departed"⟩]⟩)]) "T0").1
        none
        (ApiResult.ok [("N1", ⟨some "in_transit", [⟨some "t1", some "Memphis", some "Departed"⟩]⟩)]) "T0").1.events.filter
      (fun e => e.timestamp == some "t1" && e.description == some "Departed")).length = 2) ∧
    (handle_webhook
        (handle_webhook ⟨[⟨1, "N1", none, some "pending", none⟩], [], 2⟩
          ⟨some "N1", some "in_transit", [⟨some "t1", some "Memphis", some "Departed"⟩]⟩ "T0").1
        ⟨some "N1", some "in_transit", [⟨some "t1", some "Memphis", some "Departed"⟩]⟩ "T0").1 ≠
      (handle_webhook ⟨[⟨1, "N1", none, some "pending", none⟩], [], 2⟩
        ⟨some "N1", some "in_transit", [⟨some "t1", some "Memphis", some "Departed"⟩]⟩ "T0").1 := by
  exact ⟨by decide, by decide, by decide⟩

/-- Claim C2: there is NO terminal-status guard.  A package whose stored
status is the terminal "delivered" is regressed to "in_transit" by a merge
carrying that non-terminal status, both through `handle_webhook` and through
`sync` (the payload's event is appended, as the claim says, but the terminal
status does not survive). -/
theorem terminal_status_regressed :
    (handle_webhook ⟨[⟨1, "N1", none, some "delivered", none⟩], [], 2⟩
        ⟨some "N1", some "in_transit", [⟨some "t2", some "Hub", some "Scanned"⟩]⟩ "T1")
      = (⟨[⟨1, "N1", none, some "in_transit", some "T1"⟩],
          [⟨1, some "t2", some "Hub", some "Scanned"⟩], 2⟩, true) ∧
    (sync ⟨[⟨1, "N1", none, some "delivered", none⟩], [], 2⟩ none
        (ApiResult.ok [("N1", ⟨some "in_transit", [⟨some "t2", some "Hub", some "Scanned"⟩]⟩)]) "T1")
      = (⟨[⟨1, "N1", none, some "in_transit", some "T1"⟩],
          [⟨1, some "t2", some "Hub", some "Scanned"⟩], 2⟩, SyncOutcome.ok 1) := by
  exact ⟨by decide, by decide⟩

/-- Claim C3: when the outbound carrier request fails at the transport or
decode level (`Track17._request` catches the exception and returns an
`{"error": ...}` dictionary), `sync` returns an error result and the store
is exactly what it was before the call, for every store, every sync target
and every error message. -/
theorem sync_transport_error_no_mutation (s : Store)
    (tn : Option String) (m now : String) :
    (sync s tn (ApiResult.err m) now).1 = s ∧
    ∃ msg, (sync s tn (ApiResult.err m) now).2 = SyncOutcome.error msg := by
  unfold sync
  dsimp only
  split
  · exact ⟨rfl, "No packages to sync", rfl⟩
  · exact ⟨rfl, m, rfl⟩

/-- Claim C8: `delete` removes the package and every event it owns, in the
single transaction committed at the end of the call: afterwards `get` on the
number reports not-found, and no surviving event row references the id of
any deleted package. -/
theorem delete_cascades (s : Store) (n : String) :
    get (delete s n).1 n = none ∧
    ∀ e ∈ (delete s n).1.events, ∀ p ∈ s.packages,
      p.tracking_number = n → e.package_id ≠ p.id := by
  constructor
  · simp only [get, delete, Option.map_eq_none']
    rw [List.find?_eq_none]
    intro x hx
    rw [List.mem_filter] at hx
    simpa using hx.2
  · intro e he p hp hpn hid
    simp only [delete, List.mem_filter] at he
    have hmem : ((s.packages.filter
        (fun q => q.tracking_number == n)).map Pkg.id).contains e.package_id
        = true := by
      rw [List.elem_iff, List.mem_map]
      exact ⟨p, List.mem_filter.mpr ⟨hp, by simp [hpn]⟩, hid.symm⟩
    have h2 := he.2
    rw [hmem] at h2
    exact Bool.false_ne_true h2

/-- Witness for claim C8 at a concrete input: deleting "A" (one event) from
a store also tracking "B" (one event) makes `get "A"` report not-found, and
the surviving event of "B" does not reference the deleted package's id. -/
theorem delete_cascades_witness :
    get (delete ⟨[⟨1, "A", none, some "pending", none⟩,
                  ⟨2, "B", none, some "pending", none⟩],
                 [⟨1, some "t1", none, some "d1"⟩,
                  ⟨2, some "t2", none, some "d2"⟩], 3⟩ "A").1 "A" = none ∧
    (⟨2, some "t2", none, some "d2"⟩ : Event).package_id ≠
      (⟨1, "A", none, some "pending", none⟩ : Pkg).id := by
  have h := delete_cascades ⟨[⟨1, "A", none, some "pending", none⟩,
      ⟨2, "B", none, some "pending", none⟩],
     [⟨1, some "t1", none, some "d1"⟩,
      ⟨2, some "t2", none, some "d2"⟩], 3⟩ "A"
  exact ⟨h.1, h.2 ⟨2, some "t2", none, some "d2"⟩ (by decide)
    ⟨1, "A", none, some "pending", none⟩ (by decide) rfl⟩

/-- Claim C9 counterexample: `delete` on a tracking number that is not in
the store does NOT fail with a not-found error — on the empty store it
returns the unconditional success dictionary and leaves the store as it
was. -/
theorem delete_unknown_returns_success :
    delete ⟨[], [], 0⟩ "1Z999AA1" = (⟨[], [], 0⟩, true) := by
  decide

/-- Claim C9 amended: for every tracking number absent from the store,
`delete` succeeds (the result dictionary always carries `success: True`)
and leaves the store unchanged; no not-found error exists on this path. -/
theorem delete_unknown_no_mutation (s : Store) (n : String)
    (h : ∀ p ∈ s.packages, p.tracking_number ≠ n) :
    delete s n = (s, true) := by
  unfold delete
  have hids : (s.packages.filter (fun p => p.tracking_number == n)).map Pkg.id
      = [] := by
    rw [List.map_eq_nil_iff, List.filter_eq_nil_iff]
    intro p hp
    simp [h p hp]
  rw [hids]
  have hev : s.events.filter (fun e => !(List.contains [] e.package_id))
      = s.events := by
    rw [List.filter_eq_self]
    intro e _
    rfl
  have hpk : s.packages.filter (fun p => !(p.tracking_number == n))
      = s.packages := by
    rw [List.filter_eq_self]
    intro p hp
    simp [h p hp]
  rw [hev, hpk]

/-- Witness for the amended claim C9 at a concrete input: deleting the
untracked number "B" from a store holding only "A" succeeds and changes
nothing. -/
theorem delete_unknown_no_mutation_witness :
    delete ⟨[⟨1, "A", none, some "pending", none⟩], [], 2⟩ "B"
      = (⟨[⟨1, "A", none, some "pending", none⟩], [], 2⟩, true) :=
  delete_unknown_no_mutation ⟨[⟨1, "A", none, some "pending", none⟩], [], 2⟩ "B"
    (by decide)

/-- Claim C7 counterexample: importing the records A, A, B into the empty
store reports `imported = 3`, not `imported = 2`, and reports no skip at
all (`errors = []`), even though only two packages are actually inserted:
the duplicate record is counted as imported. -/
theorem import_counts_skipped_duplicate :
    import_packages ⟨[], [], 0⟩
        [⟨some "A", none⟩, ⟨some "A", none⟩, ⟨some "B", none⟩]
      = (⟨[⟨0, "A", none, none, none⟩, ⟨1, "B", none, none, none⟩], [], 2⟩,
         3, []) := by
  decide

/-- The `imported` counter and the `errors` list of the import loop do not
depend on the store: every record increments the counter and no record can
append an error, because INSERT OR IGNORE suppresses constraint
violations. -/
theorem importLoop_count (records : List ImportRecord) :
    ∀ (s : Store) (k : Nat) (e : List String),
      (importLoop records s k e).2.1 = k + records.length ∧
      (importLoop records s k e).2.2 = e := by
  induction records with
  | nil => intro s k e; exact ⟨rfl, rfl⟩
  | cons r rest ih =>
    intro s k e
    simp only [importLoop]
    obtain ⟨h1, h2⟩ := ih (insertOrIgnore s r.number r.carrier) (k + 1) e
    constructor
    · rw [h1, List.length_cons]
      omega
    · exact h2

/-- A record with a NULL tracking number is dropped whole by
INSERT OR IGNORE (NOT NULL violation), leaving the store untouched. -/
theorem importLoop_all_null (records : List ImportRecord)
    (h : ∀ r ∈ records, r.number = none) :
    ∀ (s : Store) (k : Nat) (e : List String),
      importLoop records s k e = (s, k + records.length, e) := by
  induction records with
  | nil => intro s k e; rfl
  | cons r rest ih =>
    intro s k e
    simp only [importLoop]
    have hr : insertOrIgnore s r.number r.carrier = s := by
      rw [h r (List.mem_cons_self r rest)]
      rfl
    rw [hr, ih (fun x hx => h x (List.mem_cons_of_mem r hx)), List.length_cons]
    have : k + 1 + rest.length = k + (rest.length + 1) := by omega
    rw [this]

/-- Claim C10: for import records that lack a tracking number, the imported
count is still incremented and nothing is appended to the errors list, even
though no package row is created — the NOT NULL violation is silently
suppressed by INSERT OR IGNORE, so on a batch of such records the reported
count is the full batch size while the store is unchanged. -/
theorem import_missing_number_counted (s : Store)
    (records : List ImportRecord) (h : ∀ r ∈ records, r.number = none) :
    import_packages s records = (s, records.length, []) := by
  unfold import_packages
  rw [importLoop_all_null records h s 0 [], Nat.zero_add]

/-- Witness for claim C10 at a concrete input: importing one record whose
`number` key is absent reports `imported = 1` with no errors while adding
no package. -/
theorem import_missing_number_counted_witness :
    import_packages ⟨[], [], 0⟩ [⟨none, some "ups"⟩]
      = (⟨[], [], 0⟩, 1, []) :=
  import_missing_number_counted ⟨[], [], 0⟩ [⟨none, some "ups"⟩] (by decide)

/-- Claim C5: a webhook whose tracking number is not in the store (which
includes a payload with no tracking number at all, since an SQL comparison
with NULL matches no row) returns the same success dictionary as the
known-number case and leaves the store completely unchanged: no package is
created and no event inserted. -/
theorem webhook_unknown_number_noop (s : Store) (d : WebhookData)
    (now : String)
    (h : ∀ p ∈ s.packages, some p.tracking_number ≠ d.tracking_number) :
    handle_webhook s d now = (s, true) := by
  unfold handle_webhook
  dsimp only
  have hmap : s.packages.map (fun p =>
      if some p.tracking_number == d.tracking_number then
        { p with status := d.status, last_update := some now }
      else p) = s.packages := by
    apply list_map_fix
    intro p hp
    have hc : (some p.tracking_number == d.tracking_number) = false := by
      rw [beq_eq_false_iff_ne]
      exact h p hp
    rw [hc]
    rfl
  rw [hmap]
  have hfind : s.packages.find?
      (fun p => some p.tracking_number == d.tracking_number) = none := by
    rw [List.find?_eq_none]
    intro p hp
    rw [Bool.not_eq_true, beq_eq_false_iff_ne]
    exact h p hp
  rw [hfind]

/-- Witness for claim C5 at a concrete input: a webhook for the untracked
number "B" against a store tracking only "A" returns success and changes
nothing. -/
theorem webhook_unknown_number_noop_witness :
    handle_webhook ⟨[⟨1, "A", none, some "pending", none⟩], [], 2⟩
        ⟨some "B", some "delivered", [⟨some "t1", none, some "Arrived"⟩]⟩ "T"
      = (⟨[⟨1, "A", none, some "pending", none⟩], [], 2⟩, true) :=
  webhook_unknown_number_noop ⟨[⟨1, "A", none, some "pending", none⟩], [], 2⟩
    ⟨some "B", some "delivered", [⟨some "t1", none, some "Arrived"⟩]⟩ "T"
    (by decide)

/-- Appending to a list whose prefix contains no match makes `find?` look
only at the suffix. -/
theorem find?_append_of_none {α : Type} (p : α → Bool) (l₁ l₂ : List α)
    (h : l₁.find? p = none) : (l₁ ++ l₂).find? p = l₂.find? p := by
  rw [List.find?_append, h, Option.none_or]

/-- Claim C6: `add` on an existing tracking number fails with the duplicate
error and leaves the store unchanged; on a fresh number it succeeds,
appending exactly one package whose status is "pending" and whose event
ledger is empty (the events table is untouched and, events referencing only
already-allocated ids, none references the new id), so adding the same
number twice yields success and then the duplicate error. -/
theorem add_duplicate_detection (s : Store) (n : String) (c : Option String)
    (hfresh : ∀ e ∈ s.events, e.package_id ≠ s.next_id) :
    ((∃ p ∈ s.packages, p.tracking_number = n) →
        add s n c = (s, AddResult.duplicate)) ∧
    ((∀ p ∈ s.packages, p.tracking_number ≠ n) →
        (add s n c).2 = AddResult.ok ∧
        (add s n c).1.packages
          = s.packages ++ [⟨s.next_id, n, c, some "pending", none⟩] ∧
        (add s n c).1.events = s.events ∧
        get (add s n c).1 n
          = some (⟨s.next_id, n, c, some "pending", none⟩, []) ∧
        (add (add s n c).1 n c).2 = AddResult.duplicate) := by
  constructor
  · intro h
    obtain ⟨p, hp, hpn⟩ := h
    unfold add
    rw [if_pos]
    rw [List.any_eq_true]
    exact ⟨p, hp, by simp [hpn]⟩
  · intro h
    have hany : s.packages.any (fun p => p.tracking_number == n) = false := by
      rw [List.any_eq_false]
      intro p hp
      rw [Bool.not_eq_true, beq_eq_false_iff_ne]
      exact h p hp
    have hadd : add s n c
        = ({ s with
              packages := s.packages ++
                [⟨s.next_id, n, c, some "pending", none⟩],
              next_id := s.next_id + 1 },
           AddResult.ok) := by
      unfold add
      rw [hany]
      rfl
    refine ⟨by rw [hadd], by rw [hadd], by rw [hadd], ?_, ?_⟩
    · rw [hadd]
      unfold get
      dsimp only
      have hpre : s.packages.find? (fun p => p.tracking_number == n)
          = none := by
        rw [List.find?_eq_none]
        intro p hp
        rw [Bool.not_eq_true, beq_eq_false_iff_ne]
        exact h p hp
      rw [find?_append_of_none _ _ _ hpre]
      rw [List.find?_cons_of_pos _ (by simp)]
      have hev : s.events.filter
          (fun e => e.package_id == s.next_id) = [] := by
        rw [List.filter_eq_nil_iff]
        intro e he
        rw [Bool.not_eq_true, beq_eq_false_iff_ne]
        exact hfresh e he
      rw [Option.map_some', hev]
    · rw [hadd]
      unfold add
      rw [if_pos]
      rw [List.any_eq_true]
      exact ⟨⟨s.next_id, n, c, some "pending", none⟩,
        List.mem_append_right _ (List.mem_cons_self _ _), by simp⟩

/-- Witness for claim C6 at a concrete input: adding "1Z999AA1" to the empty
store succeeds with status "pending" and an empty ledger, and adding it
again is rejected as a duplicate. -/
theorem add_duplicate_detection_witness :
    get (add ⟨[], [], 0⟩ "1Z999AA1" none).1 "1Z999AA1"
      = some (⟨0, "1Z999AA1", none, some "pending", none⟩, []) ∧
    (add (add ⟨[], [], 0⟩ "1Z999AA1" none).1 "1Z999AA1" none).2
      = AddResult.duplicate := by
  have h := (add_duplicate_detection ⟨[], [], 0⟩ "1Z999AA1" none
    (by intro e he; cases he)).2 (by intro p hp; cases hp)
  exact ⟨h.2.2.2.1, h.2.2.2.2⟩

/-- INSERT OR IGNORE never adds a second package for a number that is
already tracked: the number stays tracked and the count of its rows is
unchanged, whatever the record holds. -/
theorem insertOrIgnore_tracked (s : Store) (num carrier : Option String)
    (n : String) (h : ∃ p ∈ s.packages, p.tracking_number = n) :
    (∃ p ∈ (insertOrIgnore s num carrier).packages, p.tracking_number = n) ∧
    ((insertOrIgnore s num carrier).packages.filter
        (fun p => p.tracking_number == n)).length
      = (s.packages.filter (fun p => p.tracking_number == n)).length := by
  unfold insertOrIgnore
  match num with
  | none => exact ⟨h, rfl⟩
  | some m =>
    dsimp only
    split
    · exact ⟨h, rfl⟩
    · rename_i hany
      have hmn : m ≠ n := by
        intro he
        apply hany
        rw [List.any_eq_true]
        obtain ⟨p, hp, hpn⟩ := h
        exact ⟨p, hp, by simp [hpn, he]⟩
      constructor
      · obtain ⟨p, hp, hpn⟩ := h
        exact ⟨p, List.mem_append_left _ hp, hpn⟩
      · dsimp only
        rw [List.filter_append]
        have hnew : ([⟨s.next_id, m, carrier, none, none⟩] : List Pkg).filter
            (fun p => p.tracking_number == n) = [] := by
          rw [List.filter_eq_nil_iff]
          intro p hp
          rw [List.mem_singleton] at hp
          rw [hp, Bool.not_eq_true, beq_eq_false_iff_ne]
          exact hmn
        rw [hnew, List.append_nil]

/-- Through the whole import loop, a number that was already tracked on
entry is never inserted again. -/
theorem importLoop_tracked (n : String) :
    ∀ (records : List ImportRecord) (s : Store) (k : Nat) (e : List String),
    (∃ p ∈ s.packages, p.tracking_number = n) →
    ((importLoop records s k e).1.packages.filter
        (fun p => p.tracking_number == n)).length
      = (s.packages.filter (fun p => p.tracking_number == n)).length := by
  intro records
  induction records with
  | nil => intro s k e _; rfl
  | cons r rest ih =>
    intro s k e h
    obtain ⟨h1, h2⟩ := insertOrIgnore_tracked s r.number r.carrier n h
    simp only [importLoop]
    rw [ih (insertOrIgnore s r.number r.carrier) (k + 1) e h1, h2]

/-- Claim C7 amended: a record whose tracking number is already tracked is
skipped (no second package row for that number is ever inserted) and is not
fatal to the batch, but it is NOT reported: the errors list stays empty and
the imported count counts every processed record, so it can exceed the
number of packages actually inserted. -/
theorem import_duplicate_not_reported (s : Store)
    (records : List ImportRecord) (n : String)
    (h : ∃ p ∈ s.packages, p.tracking_number = n) :
    (import_packages s records).2.1 = records.length ∧
    (import_packages s records).2.2 = [] ∧
    ((import_packages s records).1.packages.filter
        (fun p => p.tracking_number == n)).length
      = (s.packages.filter (fun p => p.tracking_number == n)).length := by
  obtain ⟨hc, he⟩ := importLoop_count records s 0 []
  unfold import_packages
  refine ⟨by rw [hc, Nat.zero_add], he, ?_⟩
  exact importLoop_tracked n records s 0 [] h

/-- Witness for the amended claim C7 at a concrete input: importing the
records A, A, B into a store already tracking "A" reports three records
imported with no errors, yet still holds exactly one package for "A". -/
theorem import_duplicate_not_reported_witness :
    (import_packages ⟨[⟨1, "A", none, some "pending", none⟩], [], 2⟩
        [⟨some "A", none⟩, ⟨some "A", none⟩, ⟨some "B", none⟩]).2.1 = 3 ∧
    ((import_packages ⟨[⟨1, "A", none, some "pending", none⟩], [], 2⟩
        [⟨some "A", none⟩, ⟨some "A", none⟩, ⟨some "B", none⟩]).1.packages.filter
      (fun p => p.tracking_number == "A")).length = 1 := by
  have h := import_duplicate_not_reported
    ⟨[⟨1, "A", none, some "pending", none⟩], [], 2⟩
    [⟨some "A", none⟩, ⟨some "A", none⟩, ⟨some "B", none⟩] "A"
    ⟨⟨1, "A", none, some "pending", none⟩, by decide, rfl⟩
  refine ⟨h.1, ?_⟩
  rw [h.2.2]
  decide

/-- The per-row function applied by the UPDATE of `updateStatus` keeps the
tracking number of every row. -/
theorem upd_tracking (n st now : String) (p : Pkg) :
    (if p.tracking_number == n then
      { p with status := some st, last_update := some now }
    else p).tracking_number = p.tracking_number := by
  split <;> rfl

/-- The per-row function applied by the UPDATE of `updateStatus` keeps the
id of every row. -/
theorem upd_id (n st now : String) (p : Pkg) :
    (if p.tracking_number == n then
      { p with status := some st, last_update := some now }
    else p).id = p.id := by
  split <;> rfl

/-- Searching a package list by tracking number and returning the id is
unaffected by a rewrite of every row that keeps ids and tracking numbers. -/
theorem find?_id_map (f : Pkg → Pkg)
    (hnum : ∀ p, (f p).tracking_number = p.tracking_number)
    (hid : ∀ p, (f p).id = p.id) (m : String) :
    ∀ l : List Pkg,
      (((l.map f).find? (fun p => p.tracking_number == m)).map Pkg.id)
        = ((l.find? (fun p => p.tracking_number == m)).map Pkg.id) := by
  intro l
  induction l with
  | nil => rfl
  | cons p t ih =>
    rw [List.map_cons]
    by_cases hc : (p.tracking_number == m) = true
    · rw [@List.find?_cons_of_pos _ (fun p => p.tracking_number == m) (f p)
          (List.map f t)
          (by show ((f p).tracking_number == m) = true; rw [hnum]; exact hc),
        @List.find?_cons_of_pos _ (fun p => p.tracking_number == m) p t hc,
        Option.map_some', Option.map_some', hid]
    · rw [@List.find?_cons_of_neg _ (fun p => p.tracking_number == m) (f p)
          (List.map f t)
          (by show ¬((f p).tracking_number == m) = true; rw [hnum]; exact hc),
        @List.find?_cons_of_neg _ (fun p => p.tracking_number == m) p t hc]
      exact ih

/-- Updating statuses does not change which id a tracking-number lookup
finds. -/
theorem findId_updateStatus (s : Store) (n st now m : String) :
    findId (updateStatus s n st now) m = findId s m := by
  unfold findId updateStatus
  exact find?_id_map _ (fun p => upd_tracking n st now p)
    (fun p => upd_id n st now p) m s.packages

/-- When some package carries the wanted tracking number, the id lookup of
the sync loop succeeds and returns the id of a package carrying that
number. -/
theorem findId_some_owner (s : Store) (n : String)
    (h : ∃ q ∈ s.packages, q.tracking_number = n) :
    ∃ q ∈ s.packages, q.tracking_number = n ∧ findId s n = some q.id := by
  have hs : (s.packages.find? (fun p => p.tracking_number == n)).isSome
      = true := by
    rw [List.find?_isSome]
    obtain ⟨q, hq, hqn⟩ := h
    exact ⟨q, hq, by simp [hqn]⟩
  obtain ⟨q, hq⟩ := Option.isSome_iff_exists.mp hs
  refine ⟨q, List.mem_of_find?_eq_some hq, ?_, ?_⟩
  · have := List.find?_some hq
    simpa using this
  · unfold findId
    rw [hq]
    rfl

/-- Invariant of the sync merge loop: when every number of the response data
is tracked and package ids are unique, the loop terminates normally after
counting every response entry, and a package whose number appears nowhere in
the response survives unchanged, its event ledger untouched. -/
theorem syncLoop_spec (now : String) (data : List (String × CarrierInfo)) :
    ∀ s : Store,
    (∀ x ∈ data, ∃ q ∈ s.packages, q.tracking_number = x.1) →
    (∀ a ∈ s.packages, ∀ b ∈ s.packages, a.id = b.id → a = b) →
    ∃ s2, syncLoop now data s = some (s2, data.length) ∧
      ∀ p ∈ s.packages, (∀ x ∈ data, x.1 ≠ p.tracking_number) →
        p ∈ s2.packages ∧
        s2.events.filter (fun e => e.package_id == p.id)
          = s.events.filter (fun e => e.package_id == p.id) := by
  induction data with
  | nil =>
    intro s _ _
    exact ⟨s, rfl, fun p hp _ => ⟨hp, rfl⟩⟩
  | cons x rest ih =>
    obtain ⟨n, info⟩ := x
    intro s hsub hinj
    obtain ⟨q0, hq0mem, hq0n, hq0find⟩ := findId_some_owner s n
      (hsub (n, info) (List.mem_cons_self _ _))
    have hfind :
        findId (updateStatus s n (info.status.getD "unknown") now) n
          = some q0.id := by
      rw [findId_updateStatus]
      exact hq0find
    have hsub1 : ∀ x ∈ rest,
        ∃ q ∈ (insertEvents
            (updateStatus s n (info.status.getD "unknown") now) q0.id
            info.events).packages,
          q.tracking_number = x.1 := by
      intro x hx
      obtain ⟨q, hq, hqn⟩ := hsub x (List.mem_cons_of_mem _ hx)
      refine ⟨(if q.tracking_number == n then
          { q with status := some (info.status.getD "unknown"),
                   last_update := some now }
        else q), List.mem_map_of_mem _ hq, ?_⟩
      rw [upd_tracking]
      exact hqn
    have hinj1 : ∀ a ∈ (insertEvents
          (updateStatus s n (info.status.getD "unknown") now) q0.id
          info.events).packages,
        ∀ b ∈ (insertEvents
          (updateStatus s n (info.status.getD "unknown") now) q0.id
          info.events).packages,
        a.id = b.id → a = b := by
      intro a ha b hb hab
      obtain ⟨a0, ha0, rfl⟩ := List.mem_map.mp ha
      obtain ⟨b0, hb0, rfl⟩ := List.mem_map.mp hb
      rw [upd_id, upd_id] at hab
      rw [hinj a0 ha0 b0 hb0 hab]
    obtain ⟨s2, hloop, hframe⟩ := ih _ hsub1 hinj1
    have hstep : syncLoop now ((n, info) :: rest) s = some (s2, rest.length + 1) := by
      simp only [syncLoop, hfind, hloop]
    refine ⟨s2, by rw [hstep]; rfl, ?_⟩
    intro p hp hxp
    have hn_ne : n ≠ p.tracking_number :=
      hxp (n, info) (List.mem_cons_self _ _)
    have hupd_p : (if p.tracking_number == n then
        { p with status := some (info.status.getD "unknown"),
                 last_update := some now }
      else p) = p := by
      have hc : (p.tracking_number == n) = false := by
        rw [beq_eq_false_iff_ne]
        exact fun he => hn_ne he.symm
      rw [hc]
      rfl
    have hp1 : p ∈ (insertEvents
        (updateStatus s n (info.status.getD "unknown") now) q0.id
        info.events).packages :=
      List.mem_map.mpr ⟨p, hp, hupd_p⟩
    obtain ⟨hmem2, hfilt2⟩ := hframe p hp1
      (fun x hx => hxp x (List.mem_cons_of_mem _ hx))
    refine ⟨hmem2, ?_⟩
    rw [hfilt2]
    show (s.events ++ info.events.map
        (fun e => (⟨q0.id, e.time, e.location, e.description⟩ : Event))).filter
        (fun e => e.package_id == p.id)
      = s.events.filter (fun e => e.package_id == p.id)
    rw [List.filter_append]
    have hqid : q0.id ≠ p.id := by
      intro he
      exact hn_ne (by rw [← hq0n, hinj q0 hq0mem p hp he])
    have hnew : (info.events.map
        (fun e => (⟨q0.id, e.time, e.location, e.description⟩ : Event))).filter
        (fun e => e.package_id == p.id) = [] := by
      rw [List.filter_eq_nil_iff]
      intro e he
      obtain ⟨e0, _, rfl⟩ := List.mem_map.mp he
      rw [Bool.not_eq_true, beq_eq_false_iff_ne]
      exact hqid
    rw [hnew, List.append_nil]

/-- Claim C4: on a sync over all tracked numbers, when the carrier response
covers only tracked numbers, every package whose number is absent from the
response is left untouched — same row (status, last_update untouched) and
same event ledger — and the reported synced count is exactly the number of
entries of the response that were merged. -/
theorem sync_absent_untouched_count (s : Store)
    (data : List (String × CarrierInfo)) (now : String)
    (hne : s.packages ≠ [])
    (hinj : ∀ a ∈ s.packages, ∀ b ∈ s.packages, a.id = b.id → a = b)
    (hsub : ∀ x ∈ data, ∃ q ∈ s.packages, q.tracking_number = x.1) :
    (sync s none (ApiResult.ok data) now).2 = SyncOutcome.ok data.length ∧
    ∀ p ∈ s.packages, (∀ x ∈ data, x.1 ≠ p.tracking_number) →
      p ∈ (sync s none (ApiResult.ok data) now).1.packages ∧
      (sync s none (ApiResult.ok data) now).1.events.filter
          (fun e => e.package_id == p.id)
        = s.events.filter (fun e => e.package_id == p.id) := by
  obtain ⟨s2, hloop, hframe⟩ := syncLoop_spec now data s hsub hinj
  have hsync : sync s none (ApiResult.ok data) now
      = (s2, SyncOutcome.ok data.length) := by
    unfold sync
    dsimp only
    rw [if_neg, hloop]
    rw [Bool.not_eq_true, ← Bool.not_eq_true, List.isEmpty_iff]
    exact hne
  rw [hsync]
  exact ⟨rfl, fun p hp hxp => hframe p hp hxp⟩

/-- Witness for claim C4 at a concrete input: three tracked numbers A, B, C;
the carrier response covers A and B only; sync reports `synced = 2` and the
package for C survives with its pending status and (empty) ledger intact. -/
theorem sync_absent_untouched_count_witness :
    (sync ⟨[⟨1, "A", none, some "pending", none⟩,
            ⟨2, "B", none, some "pending", none⟩,
            ⟨3, "C", none, some "pending", none⟩], [], 4⟩ none
        (ApiResult.ok [("A", ⟨some "in_transit", []⟩),
                       ("B", ⟨some "delivered", []⟩)]) "T").2
      = SyncOutcome.ok 2 ∧
    (⟨3, "C", none, some "pending", none⟩ : Pkg) ∈
      (sync ⟨[⟨1, "A", none, some "pending", none⟩,
              ⟨2, "B", none, some "pending", none⟩,
              ⟨3, "C", none, some "pending", none⟩], [], 4⟩ none
          (ApiResult.ok [("A", ⟨some "in_transit", []⟩),
                         ("B", ⟨some "delivered", []⟩)]) "T").1.packages := by
  have h := sync_absent_untouched_count
    ⟨[⟨1, "A", none, some "pending", none⟩,
      ⟨2, "B", none, some "pending", none⟩,
      ⟨3, "C", none, some "pending", none⟩], [], 4⟩
    [("A", ⟨some "in_transit", []⟩), ("B", ⟨some "delivered", []⟩)] "T"
    (by decide) (by decide) (by decide)
  exact ⟨h.1, (h.2 ⟨3, "C", none, some "pending", none⟩ (by decide)
    (by decide)).1⟩

end Track17
